import Mathlib

/-!
Shallow embedding of the S3 browser demo app (`src/index.ts`), an Express
service exposing five routes over a single MinIO bucket: list (`GET /`),
upload (`POST /upload`), delete (`POST /delete`), download
(`GET /download/:objectName`) and preview (`GET /preview/:objectName`),
plus a startup bucket check (`checkBucket().then(() => app.listen(...))`).

The object store is modelled as a list of stored objects (key, byte payload,
optional content-type metadata value); store calls that the handlers `await`
are modelled as total functions on this state (the happy path of the MinIO
client), while the `GET /` listing is modelled at the level of the stream
events (`data` / `error` / `end`) the handler subscribes to, because the
handler's control flow—including the `throw err` inside the stream `error`
callback—depends on when those callbacks run relative to the `try`/`catch`.
Bytes are `Nat`s; JS truthiness of the string and number fields checked by
the code is made explicit.
-/

namespace S3Gallery

/-- An object stored in the bucket: its key, its byte payload, and the
optional `content-type` metadata value (`stat.metaData['content-type']`
is `undefined` when absent, hence `Option`). -/
structure StoredObject where
  key : String
  body : List Nat
  contentType : Option String
deriving DecidableEq

/-- The bucket contents. The list order is the order in which the store
enumerates objects in a listing. -/
abbrev Store := List StoredObject

/-- `minioClient.putObject(bucketName, objectName, buffer, size, metaData)`:
stores the payload under the key, replacing any existing object with that
key (S3 put semantics); the stored `Content-Type` metadata comes from the
metadata map. -/
def putObject (s : Store) (key : String) (body : List Nat) (ct : Option String) : Store :=
  s.filter (fun o => o.key != key) ++ [⟨key, body, ct⟩]

/-- `minioClient.statObject(bucketName, objectName)`: metadata lookup by
key; `none` models the rejected promise when the object does not exist. -/
def statObject (s : Store) (key : String) : Option StoredObject :=
  s.find? (fun o => o.key == key)

/-- `minioClient.getObject(bucketName, objectName)`: the object's byte
stream, read to completion. -/
def getObject (s : Store) (key : String) : Option (List Nat) :=
  (statObject s key).map (fun o => o.body)

/-- `minioClient.removeObject(bucketName, objectName)`: removes the object
if present; removing an absent key succeeds and changes nothing (S3 delete
semantics, as the service relies on). -/
def removeObject (s : Store) (key : String) : Store :=
  s.filter (fun o => o.key != key)

/-- One entry delivered by the `listObjects` stream: the fields the `GET /`
handler reads (`obj.name`, `obj.size`). -/
structure ListedObject where
  name : String
  size : Nat
deriving DecidableEq

/-- `minioClient.listObjects(bucketName, '', true)`: every object's
key/size pair, in store enumeration order. -/
def listObjects (s : Store) : List ListedObject :=
  s.map (fun o => ⟨o.key, o.body.length⟩)

/-- JS truthiness of `obj.name` (a string): falsy exactly when empty. -/
def jsTruthyStr (v : String) : Bool := v != ""

/-- JS truthiness of `obj.size` (a number): falsy exactly when zero. -/
def jsTruthyNat (v : Nat) : Bool := v != 0

/-- Events the `GET /` handler's stream subscriptions can receive, in
delivery order. -/
inductive StreamEvent where
  | data (obj : ListedObject)
  | error
  | streamEnd
deriving DecidableEq

/-- Outcome of a `GET /` request. -/
inductive ListResult where
  /-- `res.render('index', { objects, bucketName })` from the `end` callback. -/
  | renderedIndex (objects : List ListedObject)
  /-- `res.status(500).render('error', ...)` from the `catch` block. -/
  | errorView500
  /-- An exception escaped the handler: the `throw err` inside the stream
  `error` callback runs on a later event-loop tick, after the handler's
  `try`/`catch` has already finished, so nothing catches it and no response
  is produced by this handler. -/
  | uncaughtException
  /-- The stream never ended: no callback sends a response. -/
  | noResponse
deriving DecidableEq

/-- The `GET /` handler's event-loop phase: the registered callbacks
consume the stream events in order. `data` pushes the entry when both
`obj.name` and `obj.size` are truthy; `error` re-throws, which escapes the
handler (see `ListResult.uncaughtException`); `end` renders the index view
with the accumulated list. -/
def consumeEvents (acc : List ListedObject) : List StreamEvent → ListResult
  | [] => .noResponse
  | .data obj :: rest =>
      consumeEvents (if jsTruthyStr obj.name && jsTruthyNat obj.size then acc ++ [obj] else acc) rest
  | .error :: _ => .uncaughtException
  | .streamEnd :: _ => .renderedIndex acc

/-- The `GET /` handler. `syncFail` models `minioClient.listObjects`
itself throwing synchronously, the only failure the `try`/`catch` can
catch; otherwise the callbacks registered on the stream consume the events
as they arrive. -/
def handleList (syncFail : Bool) (events : List StreamEvent) : ListResult :=
  if syncFail then .errorView500 else consumeEvents [] events

/-- The event sequence a successful listing of store `s` delivers: one
`data` event per object, then `end`. -/
def storeEvents (s : Store) : List StreamEvent :=
  (listObjects s).map .data ++ [.streamEnd]

/-- The entry list the index view receives for store `s`: the stream's
entries with falsy-name or falsy-size entries dropped. -/
def renderListing (s : Store) : List ListedObject :=
  (listObjects s).filter (fun o => jsTruthyStr o.name && jsTruthyNat o.size)

/-- The decimal digit characters of `n`, most significant first: the
string JS interpolation produces for the integer `Date.now()` in the
template literal. -/
def natDigits (n : Nat) : List Char :=
  if _h : n < 10 then [Nat.digitChar n]
  else natDigits (n / 10) ++ [Nat.digitChar (n % 10)]
decreasing_by exact Nat.div_lt_self (by omega) (by omega)

/-- Decimal string of a JS integer, as a template literal renders it. -/
def natToDec (n : Nat) : String := ⟨natDigits n⟩

/-- The numeric value of a decimal digit character. -/
def digitVal (c : Char) : Nat := c.toNat - '0'.toNat

/-- Reads a digit-character list back into the number it denotes. -/
def decodeDigits (l : List Char) : Nat :=
  l.foldl (fun acc c => 10 * acc + digitVal c) 0

/-- The file part multer's memory storage hands to the upload handler:
`originalname`, `mimetype`, and the in-memory `buffer` (whose length is
`file.size`). -/
structure FilePart where
  originalname : String
  mimetype : String
  buffer : List Nat
deriving DecidableEq

/-- `file.size` under multer memory storage: the buffer's byte length. -/
def fileSize (f : FilePart) : Nat := f.buffer.length

/-- The key the upload handler computes:
`` `${Date.now()}-${file.originalname}` ``. -/
def uploadKey (now : Nat) (originalname : String) : String :=
  natToDec now ++ "-" ++ originalname

/-- Outcome of a `POST /upload` request. -/
inductive UploadResult where
  /-- `res.status(400).render('error', { message: 'No file uploaded.' })`. -/
  | badRequest400
  /-- `res.redirect('/')`. -/
  | redirectHome
deriving DecidableEq

/-- The `POST /upload` handler (store call succeeding): if no file part is
present, 400 without touching the store; otherwise `putObject` under the
timestamp-prefixed key with the declared MIME type as `Content-Type`
metadata, then redirect to `/`. -/
def handleUpload (s : Store) (now : Nat) (file : Option FilePart) : Store × UploadResult :=
  match file with
  | none => (s, .badRequest400)
  | some f =>
      (putObject s (uploadKey now f.originalname) f.buffer (some f.mimetype), .redirectHome)

/-- Outcome of a `POST /delete` request. -/
inductive DeleteResult where
  /-- `res.status(400).render('error', { message: 'Object name is missing.' })`. -/
  | badRequest400
  /-- `res.redirect('/')`. -/
  | redirectHome
deriving DecidableEq

/-- The `POST /delete` handler (store call succeeding): `req.body.objectName`
may be absent (`none`) or empty, both falsy, yielding 400 with no store
mutation; otherwise `removeObject` on that key and redirect to `/`. -/
def handleDelete (s : Store) (objectName : Option String) : Store × DeleteResult :=
  match objectName with
  | none => (s, .badRequest400)
  | some n => if n == "" then (s, .badRequest400) else (removeObject s n, .redirectHome)

/-- Outcome of a `GET /download/:objectName` request. -/
inductive DownloadResult where
  /-- 200: headers `Content-Type` and `Content-Disposition`, body piped
  from the object stream unmodified. -/
  | streamAttachment (contentType : String) (contentDisposition : String) (body : List Nat)
  /-- `res.status(500).render('error', ...)` from the `catch` block. -/
  | errorView500
deriving DecidableEq

/-- The `GET /download/:objectName` handler: `statObject` failing lands in
the `catch` (500); with a stat result, `res.setHeader('Content-Type',
stat.metaData['content-type'])` throws on an `undefined` value and also
lands in the `catch`; otherwise both headers are set and the object body
is piped to the response. -/
def handleDownload (s : Store) (objectName : String) : DownloadResult :=
  match statObject s objectName with
  | none => .errorView500
  | some obj =>
      match obj.contentType with
      | none => .errorView500
      | some ct =>
          .streamAttachment ct ("attachment; filename=\"" ++ objectName ++ "\"") obj.body

/-- Whether the character list `pre` is an initial segment of `v`. -/
def jsStartsWithAux : List Char → List Char → Bool
  | [], _ => true
  | _ :: _, [] => false
  | p :: ps, c :: cs => p == c && jsStartsWithAux ps cs

/-- JS `v.startsWith(pre)`: `pre` is an initial segment of `v`. -/
def jsStartsWith (v pre : String) : Bool :=
  jsStartsWithAux pre.data v.data

/-- Outcome of a `GET /preview/:objectName` request. -/
inductive PreviewResult where
  /-- 200: `Content-Type` header set to the stored value, body piped
  inline (no disposition header). -/
  | streamInline (contentType : String) (body : List Nat)
  /-- `res.status(404).send('Image not found.')` from the `catch` block. -/
  | notFound404
  /-- `res.status(400).send('File is not an image.')`. -/
  | badRequest400
deriving DecidableEq

/-- The `GET /preview/:objectName` handler: `statObject` failing lands in
the `catch` (404); with a stat result but no `content-type` metadata,
`stat.metaData['content-type'].startsWith(...)` throws a `TypeError`
inside the `try` and also lands in the `catch` (404); with a content-type
beginning `image/` the body is streamed inline under that content-type;
otherwise 400. -/
def handlePreview (s : Store) (objectName : String) : PreviewResult :=
  match statObject s objectName with
  | none => .notFound404
  | some obj =>
      match obj.contentType with
      | none => .notFound404
      | some ct =>
          if jsStartsWith ct "image/" then .streamInline ct obj.body else .badRequest400

/-- What happened at boot. -/
inductive BootEvent where
  /-- `minioClient.bucketExists(bucketName)` resolved. -/
  | bucketChecked
  /-- `minioClient.makeBucket(bucketName)` resolved. -/
  | bucketCreated
  /-- `app.listen(port, ...)`: the server starts accepting connections. -/
  | serverListening
  /-- `process.exit(1)` from `checkBucket`'s `catch` block. -/
  | processExit
deriving DecidableEq

/-- Boot trace of `checkBucket().then(() => app.listen(...))`, given the
outcomes of the two store calls: the bucket-exists check, then creation if
it reported absent, then—only when that whole sequence succeeded—the
listen call; a rejection of either call reaches `checkBucket`'s `catch`,
which calls `process.exit(1)` before the `then` continuation can run. -/
def bootTrace (bucketExistsCall : Except Unit Bool) (makeBucketCall : Except Unit Unit) :
    List BootEvent :=
  match bucketExistsCall with
  | .error _ => [.processExit]
  | .ok true => [.bucketChecked, .serverListening]
  | .ok false =>
      match makeBucketCall with
      | .error _ => [.bucketChecked, .processExit]
      | .ok _ => [.bucketChecked, .bucketCreated, .serverListening]

/-! ## Helper lemmas -/

/-- Decimal digit characters decode back to the digit they denote. -/
theorem digitVal_digitChar {d : Nat} (h : d < 10) : digitVal (Nat.digitChar d) = d := by
  interval_cases d <;> decide

/-- Reading the digit string of `n` back yields `n`. -/
theorem decodeDigits_natDigits (n : Nat) : decodeDigits (natDigits n) = n := by
  induction n using Nat.strong_induction_on with
  | _ n ih =>
    rw [natDigits]
    split
    · next h =>
      simp [decodeDigits, digitVal_digitChar h]
    · next h =>
      have hdiv : n / 10 < n := Nat.div_lt_self (by omega) (by omega)
      have hmod : n % 10 < 10 := Nat.mod_lt _ (by omega)
      simp only [decodeDigits, List.foldl_append, List.foldl_cons, List.foldl_nil]
      have hih := ih (n / 10) hdiv
      simp only [decodeDigits] at hih
      rw [hih, digitVal_digitChar hmod]
      omega

/-- Distinct numbers have distinct digit strings. -/
theorem natDigits_injective : Function.Injective natDigits := by
  intro a b h
  have ha := decodeDigits_natDigits a
  rw [h, decodeDigits_natDigits b] at ha
  omega

/-- A digit string is never empty. -/
theorem natDigits_ne_nil (n : Nat) : natDigits n ≠ [] := by
  rw [natDigits]
  split <;> simp

/-- An upload key is never the empty string. -/
theorem uploadKey_ne_empty (t : Nat) (f : String) : uploadKey t f ≠ "" := by
  intro h
  have hd := congrArg String.data h
  simp only [uploadKey, natToDec, String.data_append] at hd
  rcases List.append_eq_nil.mp (List.append_eq_nil.mp hd).1 with ⟨h2, _⟩
  exact natDigits_ne_nil t h2

/-- Upload keys built from the same filename at distinct timestamps
differ: the key determines the timestamp. -/
theorem uploadKey_timestamp_inj {t₁ t₂ : Nat} {f : String}
    (h : uploadKey t₁ f = uploadKey t₂ f) : t₁ = t₂ := by
  apply natDigits_injective
  have hd := congrArg String.data h
  simp only [uploadKey, natToDec, String.data_append] at hd
  exact List.append_cancel_right (List.append_cancel_right hd)

/-- A key held by no object of the store stats to `none`. -/
theorem statObject_of_fresh {s : Store} {k : String} (h : ∀ o ∈ s, o.key ≠ k) :
    statObject s k = none :=
  List.find?_eq_none.mpr (fun o ho => by simpa using h o ho)

/-- Stat over a concatenation looks left first. -/
theorem statObject_append (s₁ s₂ : Store) (k : String) :
    statObject (s₁ ++ s₂) k = (statObject s₁ k).or (statObject s₂ k) :=
  List.find?_append

/-- Put's replace-the-key filter is the identity when the key is fresh. -/
theorem filter_ne_of_fresh {s : Store} {k : String} (h : ∀ o ∈ s, o.key ≠ k) :
    s.filter (fun o => o.key != k) = s :=
  List.filter_eq_self.mpr (fun o ho => by simpa using h o ho)

/-- A full event delivery (`data*` then `end`) renders the accumulated
entries: exactly the truthy-name, truthy-size entries, in stream order. -/
theorem consumeEvents_data_end (objs acc : List ListedObject) :
    consumeEvents acc (objs.map .data ++ [.streamEnd]) =
      .renderedIndex (acc ++ objs.filter (fun o => jsTruthyStr o.name && jsTruthyNat o.size)) := by
  induction objs generalizing acc with
  | nil => simp [consumeEvents]
  | cons o rest ih =>
    cases hp : jsTruthyStr o.name && jsTruthyNat o.size with
    | true => simp [consumeEvents, hp, ih, List.filter_cons, List.append_assoc]
    | false => simp [consumeEvents, hp, ih, List.filter_cons]

/-! ## Claims -/

/-- Claim C1, counterexample: uploading a file with empty content succeeds
(redirect to `/`), yet the subsequent listing renders no new entry at
all—the handler drops the zero-size entry—so the listing does not contain
exactly one new entry whose size equals `len(C)` when `len(C) = 0`. -/
theorem C1_counterexample_empty_upload :
    (handleUpload [] 0 (some ⟨"a.png", "image/png", []⟩)).2 = .redirectHome ∧
    handleList false (storeEvents (handleUpload [] 0 (some ⟨"a.png", "image/png", []⟩)).1) =
      .renderedIndex [] ∧
    renderListing (handleUpload [] 0 (some ⟨"a.png", "image/png", []⟩)).1 = renderListing [] := by
  refine ⟨rfl, ?_, ?_⟩
  · simp [handleUpload, putObject, storeEvents, listObjects, handleList, consumeEvents, jsTruthyNat]
  · simp [handleUpload, putObject, renderListing, listObjects, jsTruthyNat]

/-- Claim C1, amended: for every upload of a file with nonempty content
`C` whose generated key is not already present, the subsequent listing is
the previous listing plus exactly one new entry, whose size is `len(C)`,
and downloading that entry's key streams exactly `C` with `Content-Type`
equal to the MIME type declared at upload. -/
theorem C1_upload_list_download_roundtrip
    (s : Store) (now : Nat) (f : FilePart)
    (hC : f.buffer ≠ [])
    (hfresh : ∀ o ∈ s, o.key ≠ uploadKey now f.originalname) :
    (handleUpload s now (some f)).2 = .redirectHome ∧
    handleList false (storeEvents (handleUpload s now (some f)).1) =
      .renderedIndex (renderListing s ++ [⟨uploadKey now f.originalname, f.buffer.length⟩]) ∧
    handleDownload (handleUpload s now (some f)).1 (uploadKey now f.originalname) =
      .streamAttachment f.mimetype
        ("attachment; filename=\"" ++ uploadKey now f.originalname ++ "\"") f.buffer := by
  have hstore : (handleUpload s now (some f)).1 =
      s ++ [⟨uploadKey now f.originalname, f.buffer, some f.mimetype⟩] := by
    simp [handleUpload, putObject, filter_ne_of_fresh hfresh]
  have hname : jsTruthyStr (uploadKey now f.originalname) = true := by
    simp [jsTruthyStr, uploadKey_ne_empty]
  have hsize : jsTruthyNat f.buffer.length = true := by
    simpa [jsTruthyNat, List.length_eq_zero] using hC
  have hstat : statObject (handleUpload s now (some f)).1 (uploadKey now f.originalname) =
      some ⟨uploadKey now f.originalname, f.buffer, some f.mimetype⟩ := by
    rw [hstore, statObject_append, statObject_of_fresh hfresh]
    simp [statObject]
  refine ⟨rfl, ?_, ?_⟩
  · rw [hstore]
    simp only [handleList, if_neg, Bool.false_eq_true, not_false_eq_true, if_false, storeEvents]
    rw [consumeEvents_data_end]
    simp [renderListing, listObjects, List.filter_append, List.filter_cons, hname, hsize]
  · simp [handleDownload, hstat]

/-- Claim C1, witness at a concrete input. -/
theorem C1_upload_list_download_roundtrip_witness :
    ([1, 2, 3] ≠ ([] : List Nat)) ∧
    (handleUpload [] 5 (some ⟨"a.png", "image/png", [1, 2, 3]⟩)).2 = .redirectHome ∧
    handleList false (storeEvents (handleUpload [] 5 (some ⟨"a.png", "image/png", [1, 2, 3]⟩)).1) =
      .renderedIndex (renderListing [] ++ [⟨uploadKey 5 "a.png", 3⟩]) ∧
    handleDownload (handleUpload [] 5 (some ⟨"a.png", "image/png", [1, 2, 3]⟩)).1
        (uploadKey 5 "a.png") =
      .streamAttachment "image/png"
        ("attachment; filename=\"" ++ uploadKey 5 "a.png" ++ "\"") [1, 2, 3] := by
  have h := C1_upload_list_download_roundtrip [] 5 ⟨"a.png", "image/png", [1, 2, 3]⟩
    (by decide) (by simp)
  exact ⟨by decide, h.1, h.2.1, h.2.2⟩

/-- Claim C2 (code bug): a stream-level `error` event raised mid-iteration
does not render the 500 error view—the `throw err` in the `error` callback
runs after the handler's `try`/`catch` has finished and escapes as an
uncaught exception—whereas only a synchronous failure of the `listObjects`
call itself reaches the `catch` and renders the 500 error view. -/
theorem C2_stream_error_escapes :
    handleList false [.data ⟨"a.txt", 3⟩, .error] = .uncaughtException ∧
    handleList true [] = .errorView500 := by
  exact ⟨by decide, rfl⟩

/-- Claim C3, counterexample: two uploads of the same original filename in
the same millisecond produce the same key, and the second upload
overwrites the first—after both, the store holds a single object carrying
the second payload. -/
theorem C3_counterexample_same_millisecond :
    uploadKey 7 "a.png" = uploadKey 7 "a.png" ∧
    (handleUpload (handleUpload [] 7 (some ⟨"a.png", "text/plain", [1]⟩)).1 7
        (some ⟨"a.png", "text/plain", [2, 9]⟩)).1 =
      [⟨uploadKey 7 "a.png", [2, 9], some "text/plain"⟩] := by
  refine ⟨rfl, ?_⟩
  simp [handleUpload, putObject, List.filter]

/-- Claim C3, amended: the upload key is the decimal timestamp, a hyphen,
and the original filename; two uploads of the same original filename at
distinct millisecond timestamps (with both keys fresh) produce distinct
keys, and both objects remain independently downloadable with their own
payloads. -/
theorem C3_distinct_timestamps_distinct_keys
    (s : Store) (t₁ t₂ : Nat) (f₁ f₂ : FilePart)
    (hsame : f₂.originalname = f₁.originalname)
    (ht : t₁ ≠ t₂)
    (h1 : ∀ o ∈ s, o.key ≠ uploadKey t₁ f₁.originalname)
    (h2 : ∀ o ∈ s, o.key ≠ uploadKey t₂ f₂.originalname) :
    uploadKey t₁ f₁.originalname = natToDec t₁ ++ "-" ++ f₁.originalname ∧
    uploadKey t₁ f₁.originalname ≠ uploadKey t₂ f₂.originalname ∧
    getObject (handleUpload (handleUpload s t₁ (some f₁)).1 t₂ (some f₂)).1
        (uploadKey t₁ f₁.originalname) = some f₁.buffer ∧
    getObject (handleUpload (handleUpload s t₁ (some f₁)).1 t₂ (some f₂)).1
        (uploadKey t₂ f₂.originalname) = some f₂.buffer := by
  have hkey : uploadKey t₁ f₁.originalname ≠ uploadKey t₂ f₂.originalname := by
    rw [hsame]
    intro h
    exact ht (uploadKey_timestamp_inj h)
  have hne : (uploadKey t₁ f₁.originalname != uploadKey t₂ f₂.originalname) = true := by
    simpa using hkey
  have hs1 : (handleUpload s t₁ (some f₁)).1 =
      s ++ [⟨uploadKey t₁ f₁.originalname, f₁.buffer, some f₁.mimetype⟩] := by
    simp [handleUpload, putObject, filter_ne_of_fresh h1]
  have hs2 : (handleUpload (handleUpload s t₁ (some f₁)).1 t₂ (some f₂)).1 =
      (s ++ [⟨uploadKey t₁ f₁.originalname, f₁.buffer, some f₁.mimetype⟩]) ++
        [⟨uploadKey t₂ f₂.originalname, f₂.buffer, some f₂.mimetype⟩] := by
    rw [hs1]
    simp only [handleUpload, putObject, List.filter_append]
    rw [filter_ne_of_fresh h2]
    simp [List.filter_cons, hne]
  refine ⟨rfl, hkey, ?_, ?_⟩
  · rw [hs2]
    simp only [getObject, statObject_append, statObject_of_fresh h1]
    simp [statObject, hkey]
  · rw [hs2]
    have hleft : statObject
        (s ++ [⟨uploadKey t₁ f₁.originalname, f₁.buffer, some f₁.mimetype⟩])
        (uploadKey t₂ f₂.originalname) = none := by
      rw [statObject_append, statObject_of_fresh h2]
      simp [statObject, hkey]
    simp only [getObject, statObject_append, hleft]
    simp [statObject]

/-- Claim C3, witness at concrete inputs. -/
theorem C3_distinct_timestamps_distinct_keys_witness :
    uploadKey 4 "a.png" = natToDec 4 ++ "-" ++ "a.png" ∧
    uploadKey 4 "a.png" ≠ uploadKey 9 "a.png" ∧
    getObject (handleUpload (handleUpload [] 4 (some ⟨"a.png", "image/png", [1]⟩)).1 9
        (some ⟨"a.png", "image/png", [2]⟩)).1 (uploadKey 4 "a.png") = some [1] ∧
    getObject (handleUpload (handleUpload [] 4 (some ⟨"a.png", "image/png", [1]⟩)).1 9
        (some ⟨"a.png", "image/png", [2]⟩)).1 (uploadKey 9 "a.png") = some [2] := by
  have h := C3_distinct_timestamps_distinct_keys [] 4 9
    ⟨"a.png", "image/png", [1]⟩ ⟨"a.png", "image/png", [2]⟩ rfl (by decide) (by simp) (by simp)
  exact ⟨h.1, h.2.1, h.2.2.1, h.2.2.2⟩

/-- Claim C4: for `GET /preview/:objectName`, a failing stat yields the
raw-text 404; a successful stat with a stored content-type not beginning
in `image/` yields the raw-text 400; a successful stat with an `image/`
content-type streams the body inline under that content-type. -/
theorem C4_preview_branches (s : Store) (k : String) :
    (statObject s k = none → handlePreview s k = .notFound404) ∧
    (∀ obj ct, statObject s k = some obj → obj.contentType = some ct →
      ((jsStartsWith ct "image/" = false → handlePreview s k = .badRequest400) ∧
        (jsStartsWith ct "image/" = true →
          handlePreview s k = .streamInline ct obj.body))) := by
  refine ⟨fun h => by simp [handlePreview, h], fun obj ct hstat hct => ⟨?_, ?_⟩⟩ <;>
    intro hsw <;> simp [handlePreview, hstat, hct, hsw]

/-- Claim C4, witness at concrete inputs: a missing key, a `text/plain`
object, and an `image/png` object. -/
theorem C4_preview_branches_witness :
    handlePreview [] "missing.png" = .notFound404 ∧
    handlePreview [⟨"doc.txt", [104, 105], some "text/plain"⟩] "doc.txt" = .badRequest400 ∧
    handlePreview [⟨"pic.png", [9], some "image/png"⟩] "pic.png" =
      .streamInline "image/png" [9] := by
  refine ⟨(C4_preview_branches [] "missing.png").1 rfl, ?_, ?_⟩
  · exact ((C4_preview_branches [⟨"doc.txt", [104, 105], some "text/plain"⟩] "doc.txt").2
      ⟨"doc.txt", [104, 105], some "text/plain"⟩ "text/plain" (by decide) rfl).1 (by decide)
  · exact ((C4_preview_branches [⟨"pic.png", [9], some "image/png"⟩] "pic.png").2
      ⟨"pic.png", [9], some "image/png"⟩ "image/png" (by decide) rfl).2 (by decide)

/-- Claim C5: a full stream delivery renders exactly the entries with
truthy name and truthy size, in stream order, and every rendered entry
has a nonempty name and nonzero size—so zero-size objects are absent. -/
theorem C5_listing_stream_order_filter (objs : List ListedObject) :
    handleList false (objs.map .data ++ [.streamEnd]) =
      .renderedIndex (objs.filter (fun o => jsTruthyStr o.name && jsTruthyNat o.size)) ∧
    ∀ o ∈ objs.filter (fun o => jsTruthyStr o.name && jsTruthyNat o.size),
      o.name ≠ "" ∧ o.size ≠ 0 := by
  constructor
  · simpa [handleList] using consumeEvents_data_end objs []
  · intro o ho
    have hp := List.of_mem_filter ho
    simp only [Bool.and_eq_true, jsTruthyStr, jsTruthyNat, bne_iff_ne, ne_eq] at hp
    exact ⟨hp.1, hp.2⟩

/-- Claim C5, witness: a zero-size entry is dropped, a nonzero one kept. -/
theorem C5_listing_stream_order_filter_witness :
    handleList false ([(⟨"a.txt", 0⟩ : ListedObject), ⟨"b.png", 2⟩].map .data ++ [.streamEnd]) =
      .renderedIndex [⟨"b.png", 2⟩] ∧
    ("b.png" ≠ "" ∧ (2 : Nat) ≠ 0) := by
  constructor
  · exact (C5_listing_stream_order_filter [⟨"a.txt", 0⟩, ⟨"b.png", 2⟩]).1.trans (by decide)
  · exact (C5_listing_stream_order_filter [⟨"a.txt", 0⟩, ⟨"b.png", 2⟩]).2 ⟨"b.png", 2⟩ (by decide)

/-- Claim C6: for `GET /download/:objectName` with a successful stat (and
a stored content-type value), the response carries `Content-Type` equal to
the stored content-type, `Content-Disposition` equal to
`attachment; filename="<objectName>"`, and the object body byte for byte. -/
theorem C6_download_success (s : Store) (k : String) (obj : StoredObject) (ct : String)
    (hstat : statObject s k = some obj) (hct : obj.contentType = some ct) :
    handleDownload s k =
      .streamAttachment ct ("attachment; filename=\"" ++ k ++ "\"") obj.body := by
  simp [handleDownload, hstat, hct]

/-- Claim C6, witness at a concrete store. -/
theorem C6_download_success_witness :
    handleDownload [⟨"report.pdf", [1, 2], some "application/pdf"⟩] "report.pdf" =
      .streamAttachment "application/pdf"
        ("attachment; filename=\"" ++ "report.pdf" ++ "\"") [1, 2] :=
  C6_download_success [⟨"report.pdf", [1, 2], some "application/pdf"⟩] "report.pdf"
    ⟨"report.pdf", [1, 2], some "application/pdf"⟩ "application/pdf" (by decide) rfl

/-- Claim C7: `POST /upload` with no file part responds 400 and performs
no store write: the store is returned unchanged. -/
theorem C7_upload_no_file (s : Store) (now : Nat) :
    handleUpload s now none = (s, .badRequest400) := rfl

/-- Claim C8: `POST /delete` with a missing or empty `objectName` responds
400 with no store mutation; otherwise it removes that key and redirects to
`/`, including when the key never existed (store unchanged, no error). -/
theorem C8_delete_branches (s : Store) :
    handleDelete s none = (s, .badRequest400) ∧
    handleDelete s (some "") = (s, .badRequest400) ∧
    (∀ n : String, n ≠ "" → handleDelete s (some n) = (removeObject s n, .redirectHome)) ∧
    (∀ n : String, n ≠ "" → (∀ o ∈ s, o.key ≠ n) →
      handleDelete s (some n) = (s, .redirectHome)) := by
  refine ⟨rfl, by simp [handleDelete], fun n hn => ?_, fun n hn hfresh => ?_⟩
  · simp [handleDelete, hn]
  · simp [handleDelete, hn, removeObject, filter_ne_of_fresh hfresh]

/-- Claim C8, witness at a concrete store. -/
theorem C8_delete_branches_witness :
    handleDelete [⟨"k", [1], none⟩] none = ([⟨"k", [1], none⟩], .badRequest400) ∧
    handleDelete [⟨"k", [1], none⟩] (some "") = ([⟨"k", [1], none⟩], .badRequest400) ∧
    handleDelete [⟨"k", [1], none⟩] (some "k") =
      (removeObject [⟨"k", [1], none⟩] "k", .redirectHome) ∧
    handleDelete [⟨"k", [1], none⟩] (some "ghost") = ([⟨"k", [1], none⟩], .redirectHome) := by
  obtain ⟨h1, h2, h3, h4⟩ := C8_delete_branches [⟨"k", [1], none⟩]
  exact ⟨h1, h2, h3 "k" (by decide), h4 "ghost" (by decide) (by decide)⟩

/-- Claim C9: the server starts listening only after the bucket
check/create sequence completes successfully (the listen event is last in
the boot trace, after the bucket check and any creation), and a failure of
either store call exits the process with the server never listening. -/
theorem C9_startup_gate (bE : Except Unit Bool) (mB : Except Unit Unit) :
    (BootEvent.serverListening ∈ bootTrace bE mB ↔
      (bE = .ok true ∨ (bE = .ok false ∧ mB = .ok ()))) ∧
    ((bootTrace bE mB).getLast? = some .serverListening ∨
      ((bootTrace bE mB).getLast? = some .processExit ∧
        BootEvent.serverListening ∉ bootTrace bE mB)) ∧
    (bootTrace bE mB = [.processExit] ∨
      bootTrace bE mB = [.bucketChecked, .processExit] ∨
      bootTrace bE mB = [.bucketChecked, .serverListening] ∨
      bootTrace bE mB = [.bucketChecked, .bucketCreated, .serverListening]) := by
  cases bE with
  | error e => cases e; simp [bootTrace]
  | ok b =>
    cases b
    · cases mB with
      | error e => cases e; simp [bootTrace]
      | ok u => cases u; simp [bootTrace]
    · simp [bootTrace]

/-- Claim C9, witness: with the bucket absent and creation succeeding the
server listens; with a failing bucket check it never does. -/
theorem C9_startup_gate_witness :
    BootEvent.serverListening ∈ bootTrace (.ok false) (.ok ()) ∧
    BootEvent.serverListening ∉ bootTrace (.error ()) (.ok ()) := by
  constructor
  · exact (C9_startup_gate (.ok false) (.ok ())).1.mpr (Or.inr ⟨rfl, rfl⟩)
  · intro hmem
    rcases (C9_startup_gate (.error ()) (.ok ())).1.mp hmem with h | ⟨h, _⟩ <;> cases h

/-- Claim C10: for `GET /preview/:objectName`, when the stat succeeds but
the metadata holds no content-type value, the handler responds 404 (the
content-type check throws and lands in the `catch`), not 400. -/
theorem C10_preview_no_content_type (s : Store) (k : String) (obj : StoredObject)
    (hstat : statObject s k = some obj) (hct : obj.contentType = none) :
    handlePreview s k = .notFound404 ∧ handlePreview s k ≠ .badRequest400 := by
  simp [handlePreview, hstat, hct]

/-- Claim C10, witness at a concrete store. -/
theorem C10_preview_no_content_type_witness :
    handlePreview [⟨"blob.bin", [0], none⟩] "blob.bin" = .notFound404 ∧
    handlePreview [⟨"blob.bin", [0], none⟩] "blob.bin" ≠ .badRequest400 :=
  C10_preview_no_content_type [⟨"blob.bin", [0], none⟩] "blob.bin"
    ⟨"blob.bin", [0], none⟩ (by decide) rfl

end S3Gallery
